import Mathlib

/-!
Shallow embedding of the fault/pre-fault management core of the
SafetyFunctions Home Assistant app (files `shared/types_common.py`,
`shared/fault_manager.py`, `shared/safety_component.py`,
`shared/recovery_manager.py`).

Modelling conventions:
* Python `int` is `Int`; Python `dict[str, str]` is an association list
  `List (String × String)` whose keys are unique by construction (dict
  semantics are implemented by `dget`/`dset`/`ddel` below).
* Host (`hass`) side effects — `log`, `set_state`, the notify callback and
  the recovery callback — are recorded in an effect trace `List Effect`;
  the entity store written by `set_state` and read by `get_state` is kept
  in the state so that attribute merging is observable.
* Python exceptions (`KeyError`, `TypeError`, `AttributeError`) are the
  `.error` case of `Except PyError`.
* Python `is not` between two strings is modelled as value inequality
  (`!=`); object identity is not representable in a value semantics.
-/

namespace HASafety

/-- `FaultState` enum from `types_common.py`. -/
inductive FaultState where
  | NOT_TESTED
  | SET
  | CLEARED
deriving DecidableEq, Repr

/-- `SMState` enum from `types_common.py`. -/
inductive SMState where
  | ERROR
  | NON_INITIALIZED
  | DISABLED
  | ENABLED
deriving DecidableEq, Repr

/-- `PreFault` from `types_common.py` (the `module`, `parameters` and
`recover_actions` fields carry component code that is outside the fault
manager; they do not enter any fault-manager computation and are omitted;
the mechanism functions they give access to are supplied as oracles where
needed). -/
structure PreFault where
  name : String
  sm_name : String
  state : FaultState := FaultState.NOT_TESTED
  sm_state : SMState := SMState.NON_INITIALIZED
deriving DecidableEq, Repr

/-- `Fault` from `types_common.py`.  Note: the class has no `priority`
attribute; only `notification_level`. -/
structure Fault where
  name : String
  state : FaultState := FaultState.NOT_TESTED
  related_prefaults : List String
  notification_level : Int
deriving DecidableEq, Repr

/-- Python exceptions that the embedded code can raise. -/
inductive PyError where
  | keyError (key : String)
  | typeError (msg : String)
  | attributeError (obj attr : String)
deriving DecidableEq, Repr

/-- Log levels used by `hass.log` calls in the embedded code. -/
inductive LogLevel where
  | DEBUG
  | WARNING
  | ERROR
deriving DecidableEq, Repr

/-- The distinct log messages emitted by the embedded code, as tags
carrying their format arguments. -/
inductive LogMsg where
  | faultWasSet (fault_name : String)
  | faultWasCleared (fault_name : String)
  | noFaultsAssociated (prefault_id : String)
  | multipleFaultsAssociated (prefault_id : String)
  | noNotificationInterface
  | noRecoveryInterface
  | noRecoveryActions (prefault_name : String)
  | recoveryConflict (prefault_name : String)
  | recoveryWillRaiseAnotherFault
  | recoveryActionNotFound (prefault_name : String)
deriving DecidableEq, Repr

/-- One observable host side effect. -/
inductive Effect where
  | log (msg : LogMsg) (level : LogLevel)
  | setState (entity state : String) (attributes : List (String × String))
  | notify (fault_name : String) (level : Int) (st : FaultState)
      (info : Option (List (String × String)))
  | recoveryCall (prefault_name : String)
  | addRecoveryAction (message fault_name : String)
deriving DecidableEq, Repr

/-- `additional_info` dictionaries (`dict[str, str]`). -/
abbrev Info := List (String × String)

/-- Python dict read `d[k]` / `d.get(k)`. -/
def dget (d : Info) (k : String) : Option String :=
  (d.find? (fun kv => kv.1 == k)).map (fun kv => kv.2)

/-- Python dict write `d[k] = v` (update in place, insert at the end). -/
def dset (d : Info) (k v : String) : Info :=
  if d.any (fun kv => kv.1 == k) then
    d.map (fun kv => if kv.1 == k then (k, v) else kv)
  else d ++ [(k, v)]

/-- Python `del d[k]`. -/
def ddel (d : Info) (k : String) : Info :=
  d.filter (fun kv => kv.1 != k)

/-- Structural splitter: leftmost non-overlapping matches of `sep`,
keeping empty parts; `fuel` bounds the recursion (any `fuel` larger than
the input length is enough, each step consumes at least one character). -/
def splitFuel (sep : List Char) : Nat → List Char → List Char → List (List Char)
  | 0, cs, acc => [acc.reverse ++ cs]
  | _ + 1, [], acc => [acc.reverse]
  | fuel + 1, c :: rest, acc =>
    if sep.isPrefixOf (c :: rest) then
      acc.reverse :: splitFuel sep fuel (List.drop (sep.length - 1) rest) []
    else splitFuel sep fuel rest (c :: acc)

/-- Python `s.split(sep)` for a non-empty separator (`sep = ""` never
occurs in the embedded code; it is mapped to the no-split result). -/
def pySplit (s sep : String) : List String :=
  if sep.isEmpty then [s]
  else (splitFuel sep.data (s.data.length + 1) s.data []).map (fun cs => { data := cs })

/-- Python `needle in hay` on strings (substring test). -/
def strContains (hay needle : String) : Bool :=
  needle.isEmpty || (pySplit hay needle).length > 1

/-- Truthiness of an `Optional[dict]` (`None` and `{}` are falsy). -/
def infoTruthy : Option Info → Bool
  | none => false
  | some [] => false
  | some (_ :: _) => true

end HASafety

namespace HASafety

/-! ### Debounce engine (`safety_component.py`, `SafetyComponent._debounce`) -/

/-- `DebounceAction` enum from `safety_component.py`. -/
inductive DebounceAction where
  | NO_ACTION
  | PREFAULT_SET
  | PREFAULT_HEALED
deriving DecidableEq, Repr

/-- `DebounceResult` named tuple from `safety_component.py`. -/
structure DebounceResult where
  action : DebounceAction
  counter : Int
deriving DecidableEq, Repr

/-- `SafetyComponent._debounce` from `safety_component.py`. -/
def debounce (current_counter : Int) (pr_test : Bool) (debounce_limit : Int) :
    DebounceResult :=
  if pr_test then
    let new_counter := min debounce_limit (current_counter + 1)
    let action :=
      if new_counter ≥ debounce_limit then DebounceAction.PREFAULT_SET
      else DebounceAction.NO_ACTION
    { action := action, counter := new_counter }
  else
    let new_counter := max (-debounce_limit) (current_counter - 1)
    let action :=
      if new_counter ≤ -debounce_limit then DebounceAction.PREFAULT_HEALED
      else DebounceAction.NO_ACTION
    { action := action, counter := new_counter }

/-- Counter value after `n` iterations of `debounce` with a constant test
result, starting from counter `0` (the caller persists the counter between
calls). -/
def debounceIter (pr_test : Bool) (debounce_limit : Int) : Nat → Int
  | 0 => 0
  | n + 1 => (debounce (debounceIter pr_test debounce_limit n) pr_test debounce_limit).counter

/-! ### Fault manager (`fault_manager.py`) -/

/-- The state of one persisted Home Assistant entity as seen through
`get_state(id, attribute="all")` / written by `set_state`. -/
structure EntityState where
  state : String
  attributes : List (String × String)
deriving DecidableEq, Repr

/-- The mutable state of a `FaultManager` instance plus the entity store of
the host it writes through.  The `prefaults` / `faults` dictionaries are
keyed by the objects' `name` fields (which is how `cfg_parser.py` and the
components build them), so they are kept as lists of the values.
`notifyRegistered` / `recoveryRegistered` record whether
`register_callbacks` has supplied `notify_interface` /
`recovery_interface` (callback invocations are traced as effects). -/
structure FMState where
  prefaults : List PreFault
  faults : List Fault
  entities : List (String × EntityState)
  notifyRegistered : Bool
  recoveryRegistered : Bool
deriving DecidableEq, Repr

/-- Dictionary read `self.prefaults[id]` (`none` = `KeyError`). -/
def pfLookup (s : FMState) (id : String) : Option PreFault :=
  s.prefaults.find? (fun pf => pf.name == id)

/-- `self.prefaults[id].state = st` — mutation of the object stored under
key `id`. -/
def setPFStateByName (l : List PreFault) (id : String) (st : FaultState) :
    List PreFault :=
  l.map (fun pf => if pf.name == id then { pf with state := st } else pf)

/-- `fault.state = st` where `fault` is the object whose
`related_prefaults` contains `sm` — only used on the branch where exactly
one fault matches, where this update touches exactly that object. -/
def setFaultStateBySm (l : List Fault) (sm : String) (st : FaultState) :
    List Fault :=
  l.map (fun f =>
    if f.related_prefaults.contains sm then { f with state := st } else f)

/-- `hass.get_state(entity_id, attribute="all")`. -/
def entityLookup (s : FMState) (entity_id : String) : Option EntityState :=
  (s.entities.find? (fun kv => kv.1 == entity_id)).map (fun kv => kv.2)

/-- `hass.set_state(entity_id, state=st, attributes=attrs)` — the update of
the host's entity store (the call is also traced as an `Effect.setState`). -/
def setEntityState (s : FMState) (entity_id st : String)
    (attrs : List (String × String)) : FMState :=
  if s.entities.any (fun kv => kv.1 == entity_id) then
    { s with entities := s.entities.map (fun kv =>
        if kv.1 == entity_id then (entity_id, EntityState.mk st attrs) else kv) }
  else
    { s with entities := s.entities ++ [(entity_id, EntityState.mk st attrs)] }

/-- `FaultManager.found_mapped_fault` — linear scan of `self.faults.values()`
for the faults whose `related_prefaults` contains `sm_id`; exactly one
match returns it, zero or several log an error and return `None`. -/
def found_mapped_fault (s : FMState) (prefault_id sm_id : String) :
    Option Fault × List Effect :=
  match s.faults.filter (fun f => f.related_prefaults.contains sm_id) with
  | [f] => (some f, [])
  | [] => (none, [Effect.log (LogMsg.noFaultsAssociated prefault_id) LogLevel.ERROR])
  | _ => (none, [Effect.log (LogMsg.multipleFaultsAssociated prefault_id) LogLevel.ERROR])

/-- The SET branch of `FaultManager._determinate_info`: merge
`additional_info` into the entity's current attributes, appending to a
comma-joined list (with a membership check) when the key already holds a
non-empty value.  `info_to_send` is written per key while membership and
the current value are read from the original `current_attributes`, as in
the source.  All attribute values in the model are strings, so the
`isinstance(current_value, str)` test of the source is always true. -/
def mergeSetInfo (current add : Info) : Info :=
  add.foldl
    (fun acc kv =>
      match dget current kv.1 with
      | some cv =>
        if cv != "None" && cv != "" then
          if !((pySplit cv ", ").contains kv.2) then
            dset acc kv.1 (cv ++ ", " ++ kv.2)
          else dset acc kv.1 cv
        else dset acc kv.1 kv.2
      | none => dset acc kv.1 kv.2)
    current

/-- The CLEARED branch of `FaultManager._determinate_info`: for each key of
`additional_info` present in the attributes, remove the matching value from
the comma-joined list, deleting the key when a single value was stored. -/
def clearInfo (current add : Info) : Info :=
  add.foldl
    (fun acc kv =>
      match dget acc kv.1 with
      | some v =>
        if strContains v ", " then
          dset acc kv.1
            (String.intercalate ", " ((pySplit v ", ").filter (fun w => w != kv.2)))
        else ddel acc kv.1
      | none => acc)
    current

/-- `FaultManager._determinate_info`. -/
def determinate_info (s : FMState) (entity_id : String)
    (additional_info : Option Info) (fault_state : FaultState) : Option Info :=
  if !(infoTruthy additional_info) then none
  else
    match entityLookup s entity_id with
    | none => if fault_state = FaultState.SET then additional_info else some []
    | some ent =>
      match fault_state with
      | FaultState.SET => some (mergeSetInfo ent.attributes (additional_info.getD []))
      | FaultState.CLEARED => some (clearInfo ent.attributes (additional_info.getD []))
      | FaultState.NOT_TESTED => additional_info

/-- `FaultManager._set_fault`: resolve the unique fault mapped to the
pre-fault's `sm_name`; if found, set its state to SET, write the
`sensor.fault_<name>` entity with the merged attributes, and invoke the
notify / recovery callbacks (or log a warning when they are missing). -/
def _set_fault (s : FMState) (prefault_id : String)
    (additional_info : Option Info) : Except PyError (FMState × List Effect) :=
  match pfLookup s prefault_id with
  | none => Except.error (PyError.keyError prefault_id)
  | some pf =>
    let sm_name := pf.sm_name
    match found_mapped_fault s prefault_id sm_name with
    | (none, logs) => Except.ok (s, logs)
    | (some fault, logs) =>
      let s1 : FMState := { s with faults := setFaultStateBySm s.faults sm_name FaultState.SET }
      let entity_id := "sensor.fault_" ++ fault.name
      -- `_determinate_info` reads the entity store before `set_state` writes it
      let info_to_send := determinate_info s1 entity_id additional_info FaultState.SET
      let attributes := if infoTruthy info_to_send then info_to_send.getD [] else []
      let s2 := setEntityState s1 entity_id "Set" attributes
      let notifyEffs :=
        if s.notifyRegistered then
          [Effect.notify fault.name fault.notification_level FaultState.SET additional_info]
        else [Effect.log LogMsg.noNotificationInterface LogLevel.WARNING]
      let recoveryEffs :=
        if s.recoveryRegistered then [Effect.recoveryCall prefault_id]
        else [Effect.log LogMsg.noRecoveryInterface LogLevel.WARNING]
      Except.ok (s2,
        logs ++ [Effect.log (LogMsg.faultWasSet fault.name) LogLevel.DEBUG]
             ++ [Effect.setState entity_id "Set" attributes]
             ++ notifyEffs ++ recoveryEffs)

/-- `FaultManager.set_prefault`: mark the pre-fault SET in the registry,
then run `_set_fault` (a missing `prefault_id` raises `KeyError` before any
mutation). -/
def set_prefault (s : FMState) (prefault_id : String)
    (additional_info : Option Info) : Except PyError (FMState × List Effect) :=
  match pfLookup s prefault_id with
  | none => Except.error (PyError.keyError prefault_id)
  | some _ =>
    let s1 : FMState :=
      { s with prefaults := setPFStateByName s.prefaults prefault_id FaultState.SET }
    _set_fault s1 prefault_id additional_info

/-- `FaultManager._clear_fault`: resolve the unique fault; clear it only
when no pre-fault sharing the same `sm_name` is still SET.  Note that the
source passes `FaultState.SET` to `_determinate_info` on this path as
well. -/
def _clear_fault (s : FMState) (prefault_id : String)
    (additional_info : Option Info) : Except PyError (FMState × List Effect) :=
  match pfLookup s prefault_id with
  | none => Except.error (PyError.keyError prefault_id)
  | some pf =>
    let sm_name := pf.sm_name
    match found_mapped_fault s prefault_id sm_name with
    | (none, logs) => Except.ok (s, logs)
    | (some fault, logs) =>
      if s.prefaults.any (fun p => p.sm_name == sm_name && p.state == FaultState.SET) then
        Except.ok (s, logs)
      else
        let s1 : FMState := { s with faults := setFaultStateBySm s.faults sm_name FaultState.CLEARED }
        let entity_id := "sensor.fault_" ++ fault.name
        -- the source calls `_determinate_info(..., FaultState.SET)` here
        let info_to_send := determinate_info s1 entity_id additional_info FaultState.SET
        let attributes := if infoTruthy info_to_send then info_to_send.getD [] else []
        let s2 := setEntityState s1 entity_id "Cleared" attributes
        let notifyEffs :=
          if s.notifyRegistered then
            [Effect.notify fault.name fault.notification_level FaultState.CLEARED additional_info]
          else [Effect.log LogMsg.noNotificationInterface LogLevel.WARNING]
        let recoveryEffs :=
          if s.recoveryRegistered then [Effect.recoveryCall prefault_id]
          else [Effect.log LogMsg.noRecoveryInterface LogLevel.WARNING]
        Except.ok (s2,
          logs ++ [Effect.log (LogMsg.faultWasCleared fault.name) LogLevel.DEBUG]
               ++ [Effect.setState entity_id "Cleared" attributes]
               ++ notifyEffs ++ recoveryEffs)

/-- `FaultManager.clear_prefault`: mark the pre-fault CLEARED in the
registry, then run `_clear_fault`. -/
def clear_prefault (s : FMState) (prefault_id : String)
    (additional_info : Option Info) : Except PyError (FMState × List Effect) :=
  match pfLookup s prefault_id with
  | none => Except.error (PyError.keyError prefault_id)
  | some _ =>
    let s1 : FMState :=
      { s with prefaults := setPFStateByName s.prefaults prefault_id FaultState.CLEARED }
    _clear_fault s1 prefault_id additional_info

/-- `FaultManager.check_prefault` (pure lookup, `KeyError` on unknown id). -/
def check_prefault (s : FMState) (prefault_id : String) : Except PyError FaultState :=
  match pfLookup s prefault_id with
  | none => Except.error (PyError.keyError prefault_id)
  | some pf => Except.ok pf.state

/-- `FaultManager.check_fault` (pure lookup, `KeyError` on unknown id). -/
def check_fault (s : FMState) (fault_id : String) : Except PyError FaultState :=
  match s.faults.find? (fun f => f.name == fault_id) with
  | none => Except.error (PyError.keyError fault_id)
  | some f => Except.ok f.state

/-- `self.prefaults[id].sm_state = st`. -/
def setPFSmStateByName (l : List PreFault) (id : String) (st : SMState) :
    List PreFault :=
  l.map (fun pf => if pf.name == id then { pf with sm_state := st } else pf)

/-- `FaultManager.init_safety_mechanisms`: each pre-fault's component
`init_safety_mechanism` call succeeds exactly for the names in `ok` (the
component code is outside the fault manager and is supplied as an oracle);
success sets `sm_state = DISABLED`, failure sets `ERROR`. -/
def init_safety_mechanisms (s : FMState) (ok : List String) : FMState :=
  { s with prefaults := s.prefaults.map (fun pf =>
      if ok.contains pf.name then { pf with sm_state := SMState.DISABLED }
      else { pf with sm_state := SMState.ERROR }) }

/-- Outcome of the forced mechanism invocation performed by
`enable_all_prefaults` right after enabling: the mechanism runs
`process_prefault`, which may call back `set_prefault` (`(name, true, info)`)
or `clear_prefault` (`(name, false, info)`) or do nothing.  Supplied as an
oracle, since the mechanism functions live in the component modules. -/
abbrev ForcedCalls := List (String × Bool × Option Info)

/-- Keep the new state of a call that may raise; an exception propagates to
the host but the Python state object keeps the mutations made so far (for
`set_prefault`/`clear_prefault`, a `KeyError` happens before any mutation,
so the state is unchanged). -/
def okStateOr (r : Except PyError (FMState × List Effect)) (s : FMState) : FMState :=
  match r with
  | Except.ok (s', _) => s'
  | Except.error _ => s

/-- One iteration of the `enable_all_prefaults` loop for the pre-fault
named `name`. -/
def enableStep (ok : List String) (forced : ForcedCalls) (s : FMState)
    (name : String) : FMState :=
  match pfLookup s name with
  | none => s
  | some pf =>
    if pf.sm_state = SMState.DISABLED then
      if ok.contains name then
        let s1 : FMState :=
          { s with prefaults := setPFSmStateByName s.prefaults name SMState.ENABLED }
        match (forced.find? (fun c => c.1 == name)).map (fun c => c.2) with
        | some (true, info) => okStateOr (set_prefault s1 name info) s1
        | some (false, info) => okStateOr (clear_prefault s1 name info) s1
        | none => s1
      else { s with prefaults := setPFSmStateByName s.prefaults name SMState.ERROR }
    else s

/-- `FaultManager.enable_all_prefaults`: iterate the registry; every
DISABLED pre-fault is enabled (or put in ERROR) and, on success, its
mechanism is force-invoked once. -/
def enable_all_prefaults (s : FMState) (ok : List String) (forced : ForcedCalls) :
    FMState :=
  (s.prefaults.map (fun pf => pf.name)).foldl (enableStep ok forced) s

/-! ### Fault-manager operation language

The public operations a caller can perform on a `FaultManager`, used to
state trace invariants.  Oracle data for the component code (init/enable
results, forced mechanism outcomes) is part of the operation. -/

inductive FMOp where
  | setPF (id : String) (info : Option Info)
  | clearPF (id : String) (info : Option Info)
  | initSMs (ok : List String)
  | enableAll (ok : List String) (forced : ForcedCalls)
  | checkPF (id : String)
  | checkFault (id : String)
deriving DecidableEq, Repr

/-- State reached after one operation (an operation that raises leaves the
registries as they were at the raise point). -/
def applyOp (s : FMState) : FMOp → FMState
  | FMOp.setPF id info => okStateOr (set_prefault s id info) s
  | FMOp.clearPF id info => okStateOr (clear_prefault s id info) s
  | FMOp.initSMs ok => init_safety_mechanisms s ok
  | FMOp.enableAll ok forced => enable_all_prefaults s ok forced
  | FMOp.checkPF _ => s
  | FMOp.checkFault _ => s

/-- State reached after a sequence of operations. -/
def applyOps (s : FMState) (ops : List FMOp) : FMState :=
  ops.foldl applyOp s

/-! ### Recovery manager (`recovery_manager.py`) -/

/-- `RecoveryAction` as the recovery manager uses it.  The variant of the
class in `types_common.py` stores only `name`; the fields actually read by
`recovery_manager.py` (`name`, `params`, `rec_fun`, `current_status`) and
constructed by `temperature_component.py` (`RecoveryAction(name, params,
recovery_func)`) are the ones modelled here.  `rec_fun` results and
`current_status` are data: the function result is supplied by the
`recFunResult` oracle of `RMState`, and `current_status` is the string
`str(self.current_status.name)` evaluates to. -/
structure RecoveryAction where
  name : String
  params : List (String × String)
  current_status : String
deriving DecidableEq, Repr

/-- The state a `RecoveryManager` reads: its `recovery_actions` dictionary
(keyed by pre-fault name), the fault manager `fm`, and oracles for the
component code it calls: `recFunResult name` is what
`recovery_actions[name].rec_fun(...)` returns (`none` models Python
`None`), and `smTestResult name changes` is what the mechanism function
`getattr(module, sm_name)(safety_mechanisms[name], changes)` returns for
the pre-fault `name` under proposed entity changes `changes`. -/
structure RMState where
  recovery_actions : List (String × RecoveryAction)
  fm : FMState
  recFunResult : String → Option (Info × List String)
  smTestResult : String → Info → Bool

/-- Dictionary read `self.recovery_actions[name]`; also
`RecoveryManager._find_recovery`, whose loop over `items()` returns the
same entry. -/
def _find_recovery (rm : RMState) (prefault_name : String) : Option RecoveryAction :=
  (rm.recovery_actions.find? (fun kv => kv.1 == prefault_name)).map (fun kv => kv.2)

/-- `RecoveryManager._run_dry_test`: re-invoke every ENABLED mechanism with
the proposed changes; report true (recovery would raise another fault)
when one triggers whose `sm_name` differs from `prefaul_name` (the source
compares the mechanism's `sm_name` with the *pre-fault name* argument,
using `is not`, modelled as string inequality). -/
def _run_dry_test (rm : RMState) (prefaul_name : String) (entities_changes : Info) :
    Bool :=
  rm.fm.prefaults.any (fun pf =>
    pf.sm_state == SMState.ENABLED
      && rm.smTestResult pf.name entities_changes
      && pf.sm_name != prefaul_name)

/-- `RecoveryManager._get_matching_actions`: the keys of the actions whose
`name` occurs as a substring of this pre-fault's action name
(`action.name in self.recovery_actions[prefault.name].name`); `KeyError`
when the pre-fault has no registered action. -/
def _get_matching_actions (rm : RMState) (prefault : PreFault) :
    Except PyError (List String) :=
  match _find_recovery rm prefault.name with
  | none => Except.error (PyError.keyError prefault.name)
  | some mine =>
    Except.ok (rm.recovery_actions.filterMap (fun kv =>
      if strContains mine.name kv.2.name then some kv.1 else none))

/-- `RecoveryManager._isRecoveryConflict`.  The source enters the conflict
scan only `if not matching_actions:`; on that branch, a resolved fault's
`rec_fault.priority` is read, but the `Fault` class has no `priority`
attribute, so reaching it raises `AttributeError`
(`_check_conflict_with_matching_actions` is therefore unreachable, and the
log effects of the dead branch's `found_mapped_fault` call are dropped). -/
def _isRecoveryConflict (rm : RMState) (prefault : PreFault) :
    Except PyError Bool :=
  match _get_matching_actions rm prefault with
  | Except.error e => Except.error e
  | Except.ok matching_actions =>
    if matching_actions.isEmpty then
      match (found_mapped_fault rm.fm prefault.name prefault.sm_name).1 with
      | some _ => Except.error (PyError.attributeError "Fault" "priority")
      | none => Except.ok false
    else Except.ok false

/-- `RecoveryManager._perform_recovery`: append each returned manual-action
notification to the active notification (one `found_mapped_fault` per
notification, logging as it goes), write the recovery-status entity, then
apply each proposed entity change through `set_state`. -/
def _perform_recovery (rm : RMState) (prefault : PreFault)
    (notifications : List String) (entities_changes : Info) : List Effect :=
  (notifications.foldl
    (fun acc notification =>
      acc ++ (match found_mapped_fault rm.fm prefault.name prefault.sm_name with
              | (some fault, logs) => logs ++ [Effect.addRecoveryAction notification fault.name]
              | (none, logs) => logs))
    [])
  ++ (match _find_recovery rm prefault.name with
      | some rec =>
        [Effect.setState ("sensor." ++ rec.name) rec.current_status []]
          ++ entities_changes.map (fun ev => Effect.setState ev.1 ev.2 [])
      | none => [Effect.log (LogMsg.recoveryActionNotFound prefault.name) LogLevel.WARNING])

/-- `RecoveryManager.recovery`: look up the action, run its `rec_fun`
(unpacking a `None` result raises `TypeError`), and when the proposed
`entities_changes` are non-empty commit them only if the dry run does not
predict another fault and no recovery conflict is reported. -/
def recovery (rm : RMState) (prefault : PreFault) :
    Except PyError (List Effect) :=
  match _find_recovery rm prefault.name with
  | none => Except.ok [Effect.log (LogMsg.noRecoveryActions prefault.name) LogLevel.DEBUG]
  | some _ =>
    match rm.recFunResult prefault.name with
    | none => Except.error (PyError.typeError "cannot unpack non-iterable NoneType object")
    | some (entities_changes, notifications) =>
      if infoTruthy (some entities_changes) then
        if !(_run_dry_test rm prefault.name entities_changes) then
          match _isRecoveryConflict rm prefault with
          | Except.error e => Except.error e
          | Except.ok true =>
            Except.ok [Effect.log (LogMsg.recoveryConflict prefault.name) LogLevel.DEBUG]
          | Except.ok false =>
            Except.ok (_perform_recovery rm prefault notifications entities_changes)
        else
          Except.ok [Effect.log LogMsg.recoveryWillRaiseAnotherFault LogLevel.DEBUG]
      else Except.ok []

/-! ### Observation helpers used by the statements -/

/-- The state of the pre-fault registered under `n` (what
`check_prefault` reports). -/
def pfState? (s : FMState) (n : String) : Option FaultState :=
  (pfLookup s n).map (fun pf => pf.state)

/-- The state of the fault registered under `n` (what `check_fault`
reports). -/
def faultState? (s : FMState) (n : String) : Option FaultState :=
  (s.faults.find? (fun f => f.name == n)).map (fun f => f.state)

/-- Effect trace of a non-raising call. -/
def okEffects (r : Except PyError (FMState × List Effect)) : Option (List Effect) :=
  match r with
  | Except.ok (_, effs) => some effs
  | Except.error _ => none

/-- Effect trace of a call, empty when the call raised. -/
def effsOf (r : Except PyError (FMState × List Effect)) : List Effect :=
  (okEffects r).getD []

/-- The faults whose `related_prefaults` contains `sm` — the candidates
`found_mapped_fault` scans for. -/
abbrev mappedFaults (s : FMState) (sm : String) : List Fault :=
  s.faults.filter (fun f => f.related_prefaults.contains sm)

def Effect.isSetStateOf (e : Effect) (entity st : String) : Bool :=
  match e with
  | Effect.setState en v _ => en == entity && v == st
  | _ => false

def Effect.isSetState : Effect → Bool
  | Effect.setState _ _ _ => true
  | _ => false

def Effect.isNotify : Effect → Bool
  | Effect.notify _ _ _ _ => true
  | _ => false

def Effect.isRecoveryCall : Effect → Bool
  | Effect.recoveryCall _ => true
  | _ => false

def Effect.isLog : Effect → Bool
  | Effect.log _ _ => true
  | _ => false

/-- `Progressed a b`: the observed state `b` is the old observation `a`
or the result of one of the two writes the fault manager ever performs. -/
def Progressed (a b : Option FaultState) : Prop :=
  b = a ∨ b = some FaultState.SET ∨ b = some FaultState.CLEARED

/-- Every pre-fault and fault observation evolves by `Progressed` from
`s` to `s'`. -/
def StepOK (s s' : FMState) : Prop :=
  (∀ n, Progressed (pfState? s n) (pfState? s' n)) ∧
  (∀ n, Progressed (faultState? s n) (faultState? s' n))

/-! ### Concrete fixtures (mirroring the test configuration: fault
`RiskyTemperature` aggregating the `sm_tc_1` pre-faults of two rooms) -/

def faultRT : Fault :=
  { name := "RiskyTemperature", related_prefaults := ["sm_tc_1"], notification_level := 2 }

def pfOffice : PreFault :=
  { name := "RiskyTemperatureOffice", sm_name := "sm_tc_1" }

def pfKitchen : PreFault :=
  { name := "RiskyTemperatureKitchen", sm_name := "sm_tc_1" }

def fmBase : FMState :=
  { prefaults := [pfOffice, pfKitchen], faults := [faultRT], entities := [],
    notifyRegistered := true, recoveryRegistered := true }

/-- Both rooms' pre-faults SET and the fault SET. -/
def fmBothSet : FMState :=
  { fmBase with
    prefaults := [{ pfOffice with state := FaultState.SET },
                  { pfKitchen with state := FaultState.SET }],
    faults := [{ faultRT with state := FaultState.SET }] }

/-- Only the office pre-fault SET and the fault SET. -/
def fmOfficeSet : FMState :=
  { fmBase with
    prefaults := [{ pfOffice with state := FaultState.SET }, pfKitchen],
    faults := [{ faultRT with state := FaultState.SET }] }

/-- No fault lists `sm_tc_1`. -/
def fmZeroFaults : FMState :=
  { fmBase with faults := [] }

/-- Two faults list `sm_tc_1`. -/
def fmTwoFaults : FMState :=
  { fmBase with faults := [faultRT, { faultRT with name := "RiskyTemperatureBis" }] }

/-- `register_callbacks` never called. -/
def fmNoCallbacks : FMState :=
  { fmBase with notifyRegistered := false, recoveryRegistered := false }

/-- Office SET with the fault entity already carrying the office location
attribute, kitchen untouched — ready for a clear of the office pre-fault. -/
def fmAttr : FMState :=
  { fmBase with
    prefaults := [{ pfOffice with state := FaultState.SET }, pfKitchen],
    faults := [{ faultRT with state := FaultState.SET }],
    entities := [("sensor.fault_RiskyTemperature",
      { state := "Set", attributes := [("location", "Office")] })] }

/-! ### Concrete recovery-manager fixtures -/

/-- Pre-fault under recovery in the conflict scenario. -/
def pfA4 : PreFault :=
  { name := "P1", sm_name := "sm_a", state := FaultState.SET, sm_state := SMState.ENABLED }

def pfB4 : PreFault :=
  { name := "P2", sm_name := "sm_b", state := FaultState.NOT_TESTED, sm_state := SMState.ENABLED }

def faultA4 : Fault :=
  { name := "FA", related_prefaults := ["sm_a"], notification_level := 2 }

def faultB4 : Fault :=
  { name := "FB", related_prefaults := ["sm_b"], notification_level := 3 }

def raP1 : RecoveryAction :=
  { name := "ManipulateWindowBig", params := [], current_status := "IDLE" }

def raP2 : RecoveryAction :=
  { name := "ManipulateWindow", params := [], current_status := "IDLE" }

/-- Two recovery actions of the same action family (`raP2.name` is a
substring of `raP1.name`), whose owning faults have priorities 2 and 3:
the configuration of the priority-conflict scenario. -/
def rmC4 : RMState :=
  { recovery_actions := [("P1", raP1), ("P2", raP2)],
    fm := { prefaults := [pfA4, pfB4], faults := [faultA4, faultB4], entities := [],
            notifyRegistered := true, recoveryRegistered := true },
    recFunResult := fun n =>
      if n == "P1" then some ([("switch.window_office", "open")], []) else none,
    smTestResult := fun _ _ => false }

/-- Recovered pre-fault of the dry-run scenarios. -/
def pfC3 : PreFault :=
  { name := "P1", sm_name := "sm_a", state := FaultState.SET, sm_state := SMState.ENABLED }

/-- Another enabled mechanism whose `sm_name` collides with the recovered
pre-fault's *name* — the hole in the dry-run comparison. -/
def pfOther3 : PreFault :=
  { name := "P2", sm_name := "P1", state := FaultState.NOT_TESTED, sm_state := SMState.ENABLED }

/-- The same mechanism with an ordinary `sm_name`. -/
def pfOther3v : PreFault :=
  { name := "P2", sm_name := "sm_b", state := FaultState.NOT_TESTED, sm_state := SMState.ENABLED }

def raC3 : RecoveryAction :=
  { name := "WinP1", params := [], current_status := "IDLE" }

def changesC3 : Info := [("switch.x", "on")]

def rmC3 : RMState :=
  { recovery_actions := [("P1", raC3)],
    fm := { prefaults := [pfC3, pfOther3],
            faults := [{ name := "FA", related_prefaults := ["sm_a"], notification_level := 2 }],
            entities := [], notifyRegistered := true, recoveryRegistered := true },
    recFunResult := fun n => if n == "P1" then some (changesC3, []) else none,
    smTestResult := fun n _ => n == "P2" }

def rmC3v : RMState :=
  { rmC3 with
    fm := { prefaults := [pfC3, pfOther3v],
            faults := [{ name := "FA", related_prefaults := ["sm_a"], notification_level := 2 }],
            entities := [], notifyRegistered := true, recoveryRegistered := true } }

/-- A sample operation sequence exercising every kind of `FMOp`. -/
def opsC6 : List FMOp :=
  [FMOp.clearPF "RiskyTemperatureKitchen" none,
   FMOp.initSMs ["RiskyTemperatureOffice", "RiskyTemperatureKitchen"],
   FMOp.enableAll ["RiskyTemperatureOffice", "RiskyTemperatureKitchen"]
     [("RiskyTemperatureKitchen", (false, none))],
   FMOp.setPF "RiskyTemperatureOffice" none,
   FMOp.checkPF "RiskyTemperatureOffice",
   FMOp.checkFault "RiskyTemperature"]

/-! ### Supporting lemmas -/

theorem debounce_counter_true (c L : Int) :
    (debounce c true L).counter = min L (c + 1) := by
  simp [debounce]

theorem debounce_counter_false (c L : Int) :
    (debounce c false L).counter = max (-L) (c - 1) := by
  simp [debounce]

theorem debounceIter_true_eq (L : Int) (hL : 0 ≤ L) :
    ∀ n : Nat, debounceIter true L n = min L n := by
  intro n
  induction n with
  | zero =>
    simp [debounceIter]
    omega
  | succ n ih =>
    rw [debounceIter, debounce_counter_true, ih]
    rw [min_def, min_def, min_def]
    split_ifs <;> push_cast <;> omega

theorem debounceIter_false_eq (L : Int) (hL : 0 ≤ L) :
    ∀ n : Nat, debounceIter false L n = max (-L) (-n) := by
  intro n
  induction n with
  | zero =>
    simp [debounceIter]
    omega
  | succ n ih =>
    rw [debounceIter, debounce_counter_false, ih]
    rw [max_def, max_def, max_def]
    split_ifs <;> push_cast <;> omega

theorem debounce_action_true (c L : Int) :
    (debounce c true L).action =
      (if min L (c + 1) ≥ L then DebounceAction.PREFAULT_SET
       else DebounceAction.NO_ACTION) := by
  simp [debounce]

theorem debounce_action_false (c L : Int) :
    (debounce c false L).action =
      (if max (-L) (c - 1) ≤ -L then DebounceAction.PREFAULT_HEALED
       else DebounceAction.NO_ACTION) := by
  simp [debounce]

theorem findMapPred {α : Type} (l : List α) (g : α → α) (p : α → Bool)
    (hg : ∀ x, p (g x) = p x) :
    (l.map g).find? p = (l.find? p).map g := by
  induction l with
  | nil => rfl
  | cons a l ih =>
    cases hpa : p a with
    | true =>
      have hga : p (g a) = true := by rw [hg]; exact hpa
      rw [List.map_cons, List.find?_cons_of_pos _ hga, List.find?_cons_of_pos _ hpa]
      rfl
    | false =>
      have hga : ¬ (p (g a) = true) := by rw [hg]; simp [hpa]
      rw [List.map_cons, List.find?_cons_of_neg _ hga,
          List.find?_cons_of_neg _ (by simp [hpa]), ih]

theorem filterMapPred {α : Type} (l : List α) (g : α → α) (p : α → Bool)
    (hg : ∀ x, p (g x) = p x) :
    (l.map g).filter p = (l.filter p).map g := by
  induction l with
  | nil => rfl
  | cons a l ih =>
    rw [List.map_cons, List.filter_cons, List.filter_cons, hg]
    cases hpa : p a with
    | true => simp only [if_true, List.map_cons, ih, ite_true]
    | false => simpa using ih

theorem setEntityState_prefaults (s : FMState) (e st : String) (a : Info) :
    (setEntityState s e st a).prefaults = s.prefaults := by
  unfold setEntityState; split <;> rfl

theorem setEntityState_faults (s : FMState) (e st : String) (a : Info) :
    (setEntityState s e st a).faults = s.faults := by
  unfold setEntityState; split <;> rfl

theorem pf_update_name (id : String) (st : FaultState) (pf : PreFault) :
    (if pf.name == id then { pf with state := st } else pf).name = pf.name := by
  split <;> rfl

theorem pfLookup_setPFStateByName (l : List PreFault) (id n : String) (st : FaultState) :
    (setPFStateByName l id st).find? (fun pf => pf.name == n)
      = (l.find? (fun pf => pf.name == n)).map
          (fun pf => if pf.name == id then { pf with state := st } else pf) := by
  unfold setPFStateByName
  exact findMapPred l _ _ (fun pf => by rw [pf_update_name])

theorem fault_update_rel (sm : String) (st : FaultState) (f : Fault) :
    (if f.related_prefaults.contains sm then { f with state := st } else f).related_prefaults
      = f.related_prefaults := by
  split <;> rfl

theorem filter_setFaultStateBySm (l : List Fault) (sm : String) (st : FaultState) :
    (setFaultStateBySm l sm st).filter (fun f => f.related_prefaults.contains sm)
      = (l.filter (fun f => f.related_prefaults.contains sm)).map
          (fun f => { f with state := st }) := by
  unfold setFaultStateBySm
  rw [filterMapPred l _ _ (fun f => by rw [fault_update_rel])]
  refine List.map_congr_left (fun f hf => ?_)
  have hpf : f.related_prefaults.contains sm = true := (List.mem_filter.mp hf).2
  rw [if_pos hpf]

theorem find?_setPFStateByName_self (l : List PreFault) (p : String) (st : FaultState)
    (pf : PreFault) (hpf : l.find? (fun q => q.name == p) = some pf) :
    (setPFStateByName l p st).find? (fun q => q.name == p) = some { pf with state := st } := by
  have hpname : (pf.name == p) = true := by
    have h := List.find?_some hpf
    exact h
  rw [pfLookup_setPFStateByName, hpf, Option.map_some', if_pos hpname]

theorem pfLookup_after_update (s : FMState) (p : String) (st : FaultState)
    (pf : PreFault) (hpf : pfLookup s p = some pf) :
    pfLookup { s with prefaults := setPFStateByName s.prefaults p st } p
      = some { pf with state := st } := by
  unfold pfLookup at hpf
  show (setPFStateByName s.prefaults p st).find? (fun q => q.name == p)
        = some { pf with state := st }
  exact find?_setPFStateByName_self s.prefaults p st pf hpf

theorem mappedFaults_setEntityState (s : FMState) (e st : String) (a : Info)
    (sm : String) :
    mappedFaults (setEntityState s e st a) sm = mappedFaults s sm := by
  show (setEntityState s e st a).faults.filter _ = _
  rw [setEntityState_faults]

theorem mappedFaults_after_set (s : FMState) (prefU : List PreFault)
    (sm : String) (st : FaultState) (F : Fault)
    (hF : mappedFaults s sm = [F]) :
    mappedFaults { s with prefaults := prefU, faults := setFaultStateBySm s.faults sm st } sm
      = [{ F with state := st }] := by
  show (setFaultStateBySm s.faults sm st).filter _ = _
  have hF' : s.faults.filter (fun f => f.related_prefaults.contains sm) = [F] := hF
  rw [filter_setFaultStateBySm, hF']
  rfl

theorem pfState?_setEntityState (s : FMState) (e st : String) (a : Info)
    (n : String) :
    pfState? (setEntityState s e st a) n = pfState? s n := by
  unfold pfState? pfLookup
  rw [setEntityState_prefaults]

theorem pfState?_after_update (s : FMState) (faultsU : List Fault) (p : String)
    (st : FaultState) (pf : PreFault) (hpf : pfLookup s p = some pf) :
    pfState? { s with prefaults := setPFStateByName s.prefaults p st, faults := faultsU } p
      = some st := by
  unfold pfLookup at hpf
  unfold pfState? pfLookup
  show ((setPFStateByName s.prefaults p st).find? (fun q => q.name == p)).map _ = _
  rw [find?_setPFStateByName_self s.prefaults p st pf hpf]
  rfl

theorem pfState?_after_update_only (s : FMState) (p : String)
    (st : FaultState) (pf : PreFault) (hpf : pfLookup s p = some pf) :
    pfState? { s with prefaults := setPFStateByName s.prefaults p st } p = some st := by
  unfold pfLookup at hpf
  unfold pfState? pfLookup
  show ((setPFStateByName s.prefaults p st).find? (fun q => q.name == p)).map _ = _
  rw [find?_setPFStateByName_self s.prefaults p st pf hpf]
  rfl

theorem found_mapped_fault_one (s : FMState) (pid sm : String) (F : Fault)
    (hF : s.faults.filter (fun f => f.related_prefaults.contains sm) = [F]) :
    found_mapped_fault s pid sm = (some F, []) := by
  unfold found_mapped_fault
  rw [hF]

theorem found_mapped_fault_zero (s : FMState) (pid sm : String)
    (hF : s.faults.filter (fun f => f.related_prefaults.contains sm) = []) :
    found_mapped_fault s pid sm
      = (none, [Effect.log (LogMsg.noFaultsAssociated pid) LogLevel.ERROR]) := by
  unfold found_mapped_fault
  rw [hF]

theorem found_mapped_fault_multi (s : FMState) (pid sm : String)
    (F1 F2 : Fault) (rest : List Fault)
    (hF : s.faults.filter (fun f => f.related_prefaults.contains sm) = F1 :: F2 :: rest) :
    found_mapped_fault s pid sm
      = (none, [Effect.log (LogMsg.multipleFaultsAssociated pid) LogLevel.ERROR]) := by
  unfold found_mapped_fault
  rw [hF]

/-- Full computation of `set_prefault` when exactly one fault maps to the
pre-fault's mechanism family. -/
theorem set_prefault_eq_one (s : FMState) (p : String) (info : Option Info)
    (pf : PreFault) (F : Fault)
    (hpf : pfLookup s p = some pf)
    (hF : s.faults.filter (fun f => f.related_prefaults.contains pf.sm_name) = [F]) :
    set_prefault s p info =
      (let s1 : FMState :=
        { s with prefaults := setPFStateByName s.prefaults p FaultState.SET,
                 faults := setFaultStateBySm s.faults pf.sm_name FaultState.SET }
       let entity_id := "sensor.fault_" ++ F.name
       let attrs :=
         if infoTruthy (determinate_info s1 entity_id info FaultState.SET) then
           (determinate_info s1 entity_id info FaultState.SET).getD []
         else []
       Except.ok (setEntityState s1 entity_id "Set" attrs,
         [Effect.log (LogMsg.faultWasSet F.name) LogLevel.DEBUG,
          Effect.setState entity_id "Set" attrs]
         ++ (if s.notifyRegistered then
               [Effect.notify F.name F.notification_level FaultState.SET info]
             else [Effect.log LogMsg.noNotificationInterface LogLevel.WARNING])
         ++ (if s.recoveryRegistered then [Effect.recoveryCall p]
             else [Effect.log LogMsg.noRecoveryInterface LogLevel.WARNING]))) := by
  have hlook := pfLookup_after_update s p FaultState.SET pf hpf
  have hfmf : found_mapped_fault
      { s with prefaults := setPFStateByName s.prefaults p FaultState.SET } p pf.sm_name
      = (some F, []) := found_mapped_fault_one _ p pf.sm_name F hF
  simp only [set_prefault, hpf, _set_fault, hlook, hfmf]
  rfl

/-- `set_prefault` when the mapped-fault lookup fails (zero or several
matching faults): the pre-fault is still marked SET, everything else is
skipped. -/
theorem set_prefault_eq_fail (s : FMState) (p : String) (info : Option Info)
    (pf : PreFault) (effs : List Effect)
    (hpf : pfLookup s p = some pf)
    (hfmf : found_mapped_fault
      { s with prefaults := setPFStateByName s.prefaults p FaultState.SET } p pf.sm_name
      = (none, effs)) :
    set_prefault s p info =
      Except.ok
        ({ s with prefaults := setPFStateByName s.prefaults p FaultState.SET }, effs) := by
  have hlook := pfLookup_after_update s p FaultState.SET pf hpf
  simp only [set_prefault, hpf, _set_fault, hlook, hfmf]

theorem sibling_any_true (l : List PreFault) (p sm : String) (st : FaultState)
    (q : PreFault) (hq : q ∈ l) (hname : ¬ (q.name = p))
    (hsm : q.sm_name = sm) (hst : q.state = FaultState.SET) :
    (setPFStateByName l p st).any
      (fun r => r.sm_name == sm && r.state == FaultState.SET) = true := by
  rw [List.any_eq_true]
  refine ⟨q, ?_, ?_⟩
  · unfold setPFStateByName
    rw [List.mem_map]
    refine ⟨q, hq, ?_⟩
    rw [if_neg (by simp [hname])]
  · simp [hsm, hst]

theorem sibling_any_false (l : List PreFault) (p sm : String)
    (honly : ∀ q ∈ l, q.sm_name = sm → q.state = FaultState.SET → q.name = p) :
    (setPFStateByName l p FaultState.CLEARED).any
      (fun r => r.sm_name == sm && r.state == FaultState.SET) = false := by
  rw [Bool.eq_false_iff]
  intro hany
  rw [List.any_eq_true] at hany
  obtain ⟨r, hr, hcond⟩ := hany
  unfold setPFStateByName at hr
  rw [List.mem_map] at hr
  obtain ⟨q, hq, hqr⟩ := hr
  by_cases hname : q.name = p
  · rw [if_pos (by simp [hname])] at hqr
    rw [← hqr] at hcond
    simp at hcond
  · rw [if_neg (by simp [hname])] at hqr
    rw [← hqr] at hcond
    simp only [Bool.and_eq_true, beq_iff_eq] at hcond
    exact hname (honly q hq hcond.1 hcond.2)

/-- `clear_prefault` when a sibling pre-fault of the same mechanism family
is still SET: the pre-fault is marked CLEARED but the fault is untouched
(aggregation rule). -/
theorem clear_prefault_eq_blocked (s : FMState) (p : String) (info : Option Info)
    (pf : PreFault) (F : Fault)
    (hpf : pfLookup s p = some pf)
    (hF : s.faults.filter (fun f => f.related_prefaults.contains pf.sm_name) = [F])
    (hsib : (setPFStateByName s.prefaults p FaultState.CLEARED).any
      (fun r => r.sm_name == pf.sm_name && r.state == FaultState.SET) = true) :
    clear_prefault s p info =
      Except.ok
        ({ s with prefaults := setPFStateByName s.prefaults p FaultState.CLEARED }, []) := by
  have hlook := pfLookup_after_update s p FaultState.CLEARED pf hpf
  have hfmf : found_mapped_fault
      { s with prefaults := setPFStateByName s.prefaults p FaultState.CLEARED } p pf.sm_name
      = (some F, []) := found_mapped_fault_one _ p pf.sm_name F hF
  simp only [clear_prefault, hpf, _clear_fault, hlook, hfmf, hsib]
  rfl

/-- Full computation of `clear_prefault` when no pre-fault of the same
mechanism family remains SET after the update: the fault is cleared and
reported. -/
theorem clear_prefault_eq_clear (s : FMState) (p : String) (info : Option Info)
    (pf : PreFault) (F : Fault)
    (hpf : pfLookup s p = some pf)
    (hF : s.faults.filter (fun f => f.related_prefaults.contains pf.sm_name) = [F])
    (hsib : (setPFStateByName s.prefaults p FaultState.CLEARED).any
      (fun r => r.sm_name == pf.sm_name && r.state == FaultState.SET) = false) :
    clear_prefault s p info =
      (let s1 : FMState :=
        { s with prefaults := setPFStateByName s.prefaults p FaultState.CLEARED,
                 faults := setFaultStateBySm s.faults pf.sm_name FaultState.CLEARED }
       let entity_id := "sensor.fault_" ++ F.name
       let attrs :=
         if infoTruthy (determinate_info s1 entity_id info FaultState.SET) then
           (determinate_info s1 entity_id info FaultState.SET).getD []
         else []
       Except.ok (setEntityState s1 entity_id "Cleared" attrs,
         [Effect.log (LogMsg.faultWasCleared F.name) LogLevel.DEBUG,
          Effect.setState entity_id "Cleared" attrs]
         ++ (if s.notifyRegistered then
               [Effect.notify F.name F.notification_level FaultState.CLEARED info]
             else [Effect.log LogMsg.noNotificationInterface LogLevel.WARNING])
         ++ (if s.recoveryRegistered then [Effect.recoveryCall p]
             else [Effect.log LogMsg.noRecoveryInterface LogLevel.WARNING]))) := by
  have hlook := pfLookup_after_update s p FaultState.CLEARED pf hpf
  have hfmf : found_mapped_fault
      { s with prefaults := setPFStateByName s.prefaults p FaultState.CLEARED } p pf.sm_name
      = (some F, []) := found_mapped_fault_one _ p pf.sm_name F hF
  simp only [clear_prefault, hpf, _clear_fault, hlook, hfmf, hsib]
  rfl

/-- `clear_prefault` when the mapped-fault lookup fails: the pre-fault is
still marked CLEARED, everything else is skipped. -/
theorem clear_prefault_eq_fail (s : FMState) (p : String) (info : Option Info)
    (pf : PreFault) (effs : List Effect)
    (hpf : pfLookup s p = some pf)
    (hfmf : found_mapped_fault
      { s with prefaults := setPFStateByName s.prefaults p FaultState.CLEARED } p pf.sm_name
      = (none, effs)) :
    clear_prefault s p info =
      Except.ok
        ({ s with prefaults := setPFStateByName s.prefaults p FaultState.CLEARED }, effs) := by
  have hlook := pfLookup_after_update s p FaultState.CLEARED pf hpf
  simp only [clear_prefault, hpf, _clear_fault, hlook, hfmf]

/-- C2: Debounce hysteresis: for every limit > 0, each step computes
`new_counter = min(limit, counter + 1)` on a true test and
`max(-limit, counter - 1)` on a false test; iterating from counter 0 with
a constant true test returns NO_ACTION on each of the first `limit - 1`
calls and PREFAULT_SET on the `limit`-th call, and symmetrically a
constant false test returns NO_ACTION on the first `limit - 1` calls and
PREFAULT_HEALED on the `limit`-th. -/
theorem debounce_hysteresis (limit : Int) (hpos : 0 < limit) :
    (∀ c : Int, (debounce c true limit).counter = min limit (c + 1)) ∧
    (∀ c : Int, (debounce c false limit).counter = max (-limit) (c - 1)) ∧
    (∀ k : Nat, 1 ≤ k → (k : Int) < limit →
      (debounce (debounceIter true limit (k - 1)) true limit).action
        = DebounceAction.NO_ACTION) ∧
    (debounce (debounceIter true limit (limit.toNat - 1)) true limit).action
        = DebounceAction.PREFAULT_SET ∧
    (∀ k : Nat, 1 ≤ k → (k : Int) < limit →
      (debounce (debounceIter false limit (k - 1)) false limit).action
        = DebounceAction.NO_ACTION) ∧
    (debounce (debounceIter false limit (limit.toNat - 1)) false limit).action
        = DebounceAction.PREFAULT_HEALED := by
  refine ⟨fun c => debounce_counter_true c limit,
         fun c => debounce_counter_false c limit, ?_, ?_, ?_, ?_⟩
  · intro k hk hklim
    rw [debounce_action_true, debounceIter_true_eq limit hpos.le, if_neg (by omega)]
  · rw [debounce_action_true, debounceIter_true_eq limit hpos.le, if_pos (by omega)]
  · intro k hk hklim
    rw [debounce_action_false, debounceIter_false_eq limit hpos.le, if_neg (by omega)]
  · rw [debounce_action_false, debounceIter_false_eq limit hpos.le, if_pos (by omega)]

/-- C7: Configuration-error handling in fault lookup: when zero faults
list `sm` in `related_prefaults`, `found_mapped_fault` returns `None`
and logs only the no-fault-associated error; when more than one fault
matches it returns `None` and logs only the multiple-faults-associated
error; when exactly one matches, that fault is returned with no log.  The
embedded function is total, so no exception is possible in any case. -/
theorem found_mapped_fault_validation (s : FMState) (pid sm : String) :
    (mappedFaults s sm = [] →
      found_mapped_fault s pid sm
        = (none, [Effect.log (LogMsg.noFaultsAssociated pid) LogLevel.ERROR])) ∧
    (∀ F1 F2 rest, mappedFaults s sm = F1 :: F2 :: rest →
      found_mapped_fault s pid sm
        = (none, [Effect.log (LogMsg.multipleFaultsAssociated pid) LogLevel.ERROR])) ∧
    (∀ F, mappedFaults s sm = [F] → found_mapped_fault s pid sm = (some F, [])) :=
  ⟨fun h => found_mapped_fault_zero s pid sm h,
   fun F1 F2 rest h => found_mapped_fault_multi s pid sm F1 F2 rest h,
   fun F h => found_mapped_fault_one s pid sm F h⟩

/-- Witness for `found_mapped_fault_validation` on the zero-fault,
two-fault and one-fault fixtures. -/
theorem found_mapped_fault_validation_witness :
    found_mapped_fault fmZeroFaults "RiskyTemperatureOffice" "sm_tc_1"
      = (none, [Effect.log (LogMsg.noFaultsAssociated "RiskyTemperatureOffice") LogLevel.ERROR]) ∧
    found_mapped_fault fmTwoFaults "RiskyTemperatureOffice" "sm_tc_1"
      = (none, [Effect.log (LogMsg.multipleFaultsAssociated "RiskyTemperatureOffice") LogLevel.ERROR]) ∧
    found_mapped_fault fmBase "RiskyTemperatureOffice" "sm_tc_1" = (some faultRT, []) :=
  ⟨(found_mapped_fault_validation fmZeroFaults "RiskyTemperatureOffice" "sm_tc_1").1 (by decide),
   (found_mapped_fault_validation fmTwoFaults "RiskyTemperatureOffice" "sm_tc_1").2.1
     faultRT { faultRT with name := "RiskyTemperatureBis" } [] (by decide),
   (found_mapped_fault_validation fmBase "RiskyTemperatureOffice" "sm_tc_1").2.2 faultRT (by decide)⟩

/-- C1: Many-to-one fault aggregation: with exactly one fault `F` mapped
to the mechanism family of pre-fault `p1`, and a second registered
pre-fault `p2` of the same family: `set_prefault p1` leaves the mapped
fault in state SET; `clear_prefault p1` while `p2` is SET leaves the
mapped fault list unchanged (so a SET fault stays SET); and when `p1` is
the only pre-fault of the family still SET, `clear_prefault p1` puts the
mapped fault in state CLEARED. -/
theorem many_to_one_aggregation (s : FMState) (p1 p2 : String)
    (pf1 pf2 : PreFault) (F : Fault) (info : Option Info)
    (hp1 : pfLookup s p1 = some pf1)
    (hp2 : pfLookup s p2 = some pf2)
    (hsm2 : pf2.sm_name = pf1.sm_name)
    (hne : p2 ≠ p1)
    (hF : mappedFaults s pf1.sm_name = [F]) :
    (mappedFaults (okStateOr (set_prefault s p1 info) s) pf1.sm_name
        = [{ F with state := FaultState.SET }]) ∧
    (pf2.state = FaultState.SET →
      mappedFaults (okStateOr (clear_prefault s p1 info) s) pf1.sm_name = [F]) ∧
    ((∀ q ∈ s.prefaults, q.sm_name = pf1.sm_name → q.state = FaultState.SET → q.name = p1) →
      mappedFaults (okStateOr (clear_prefault s p1 info) s) pf1.sm_name
        = [{ F with state := FaultState.CLEARED }]) := by
  refine ⟨?_, ?_, ?_⟩
  · rw [set_prefault_eq_one s p1 info pf1 F hp1 hF]
    simp only [okStateOr]
    rw [mappedFaults_setEntityState]
    exact mappedFaults_after_set s _ pf1.sm_name FaultState.SET F hF
  · intro hp2set
    have hq2 : pf2 ∈ s.prefaults := List.mem_of_find?_eq_some hp2
    have hname2 : pf2.name = p2 := by
      unfold pfLookup at hp2
      have h := List.find?_some hp2
      simpa using h
    have hsib := sibling_any_true s.prefaults p1 pf1.sm_name FaultState.CLEARED pf2 hq2
      (by rw [hname2]; exact hne) hsm2 hp2set
    rw [clear_prefault_eq_blocked s p1 info pf1 F hp1 hF hsib]
    simp only [okStateOr]
    exact hF
  · intro honly
    have hsib := sibling_any_false s.prefaults p1 pf1.sm_name honly
    rw [clear_prefault_eq_clear s p1 info pf1 F hp1 hF hsib]
    simp only [okStateOr]
    rw [mappedFaults_setEntityState]
    exact mappedFaults_after_set s _ pf1.sm_name FaultState.CLEARED F hF

/-- Witness for `many_to_one_aggregation`: on the two-room fixture,
setting the office pre-fault keeps the fault SET; clearing it while the
kitchen one is SET keeps the fault SET; clearing it when it is the only
SET member clears the fault. -/
theorem many_to_one_aggregation_witness :
    mappedFaults (okStateOr (set_prefault fmBothSet "RiskyTemperatureOffice" none) fmBothSet)
        "sm_tc_1" = [{ faultRT with state := FaultState.SET }] ∧
    mappedFaults (okStateOr (clear_prefault fmBothSet "RiskyTemperatureOffice" none) fmBothSet)
        "sm_tc_1" = [{ faultRT with state := FaultState.SET }] ∧
    mappedFaults (okStateOr (clear_prefault fmOfficeSet "RiskyTemperatureOffice" none) fmOfficeSet)
        "sm_tc_1" = [{ faultRT with state := FaultState.CLEARED }] := by
  have h1 := many_to_one_aggregation fmBothSet "RiskyTemperatureOffice" "RiskyTemperatureKitchen"
    { pfOffice with state := FaultState.SET } { pfKitchen with state := FaultState.SET }
    { faultRT with state := FaultState.SET } none
    (by decide) (by decide) (by decide) (by decide) (by decide)
  have h2 := many_to_one_aggregation fmOfficeSet "RiskyTemperatureOffice" "RiskyTemperatureKitchen"
    { pfOffice with state := FaultState.SET } pfKitchen
    { faultRT with state := FaultState.SET } none
    (by decide) (by decide) (by decide) (by decide) (by decide)
  exact ⟨h1.1, h1.2.1 (by decide), h2.2.2 (by decide)⟩

/-- C9: Idempotence of repeated SET: calling `set_prefault` on a
pre-fault that is already SET raises no error, leaves the pre-fault SET
and leaves the mapped fault SET. -/
theorem set_prefault_idempotent (s : FMState) (p : String) (info : Option Info)
    (pf : PreFault) (F : Fault)
    (hpf : pfLookup s p = some pf)
    (halready : pf.state = FaultState.SET)
    (hF : mappedFaults s pf.sm_name = [F]) :
    (set_prefault s p info).isOk = true ∧
    pfState? (okStateOr (set_prefault s p info) s) p = some FaultState.SET ∧
    mappedFaults (okStateOr (set_prefault s p info) s) pf.sm_name
      = [{ F with state := FaultState.SET }] := by
  rw [set_prefault_eq_one s p info pf F hpf hF]
  refine ⟨rfl, ?_, ?_⟩
  · simp only [okStateOr]
    rw [pfState?_setEntityState]
    exact pfState?_after_update s _ p FaultState.SET pf hpf
  · simp only [okStateOr]
    rw [mappedFaults_setEntityState]
    exact mappedFaults_after_set s _ pf.sm_name FaultState.SET F hF

/-- Witness for `set_prefault_idempotent` on the fixture where the office
pre-fault and the fault are already SET. -/
theorem set_prefault_idempotent_witness :
    (set_prefault fmOfficeSet "RiskyTemperatureOffice" none).isOk = true ∧
    pfState? (okStateOr (set_prefault fmOfficeSet "RiskyTemperatureOffice" none) fmOfficeSet)
        "RiskyTemperatureOffice" = some FaultState.SET ∧
    mappedFaults (okStateOr (set_prefault fmOfficeSet "RiskyTemperatureOffice" none) fmOfficeSet)
        "sm_tc_1" = [{ faultRT with state := FaultState.SET }] :=
  set_prefault_idempotent fmOfficeSet "RiskyTemperatureOffice" none
    { pfOffice with state := FaultState.SET } { faultRT with state := FaultState.SET }
    (by decide) (by decide) (by decide)

/-- C8: Fault tracking survives missing callbacks: with neither
`notify_interface` nor `recovery_interface` registered, `set_prefault` on
a validly mapped pre-fault raises no error, still marks pre-fault and
mapped fault SET, still writes the fault entity, logs the two missing
interface warnings, and invokes no notify or recovery callback. -/
theorem set_prefault_without_callbacks (s : FMState) (p : String) (info : Option Info)
    (pf : PreFault) (F : Fault)
    (hnotify : s.notifyRegistered = false)
    (hrecovery : s.recoveryRegistered = false)
    (hpf : pfLookup s p = some pf)
    (hF : mappedFaults s pf.sm_name = [F]) :
    (set_prefault s p info).isOk = true ∧
    pfState? (okStateOr (set_prefault s p info) s) p = some FaultState.SET ∧
    mappedFaults (okStateOr (set_prefault s p info) s) pf.sm_name
      = [{ F with state := FaultState.SET }] ∧
    (effsOf (set_prefault s p info)).any
        (fun e => e.isSetStateOf ("sensor.fault_" ++ F.name) "Set") = true ∧
    Effect.log LogMsg.noNotificationInterface LogLevel.WARNING ∈ effsOf (set_prefault s p info) ∧
    Effect.log LogMsg.noRecoveryInterface LogLevel.WARNING ∈ effsOf (set_prefault s p info) ∧
    (effsOf (set_prefault s p info)).any (fun e => e.isNotify || e.isRecoveryCall) = false := by
  rw [set_prefault_eq_one s p info pf F hpf hF]
  refine ⟨rfl, ?_, ?_, ?_, ?_, ?_, ?_⟩
  · simp only [okStateOr]
    rw [pfState?_setEntityState]
    exact pfState?_after_update s _ p FaultState.SET pf hpf
  · simp only [okStateOr]
    rw [mappedFaults_setEntityState]
    exact mappedFaults_after_set s _ pf.sm_name FaultState.SET F hF
  · simp [effsOf, okEffects, hnotify, hrecovery, Effect.isSetStateOf]
  · simp [effsOf, okEffects, hnotify, hrecovery]
  · simp [effsOf, okEffects, hnotify, hrecovery]
  · simp [effsOf, okEffects, hnotify, hrecovery,
      Effect.isNotify, Effect.isRecoveryCall]

/-- Witness for `set_prefault_without_callbacks` on the fixture with no
registered callbacks. -/
theorem set_prefault_without_callbacks_witness :
    (set_prefault fmNoCallbacks "RiskyTemperatureOffice" none).isOk = true ∧
    pfState? (okStateOr (set_prefault fmNoCallbacks "RiskyTemperatureOffice" none) fmNoCallbacks)
        "RiskyTemperatureOffice" = some FaultState.SET ∧
    mappedFaults (okStateOr (set_prefault fmNoCallbacks "RiskyTemperatureOffice" none) fmNoCallbacks)
        "sm_tc_1" = [{ faultRT with state := FaultState.SET }] ∧
    (effsOf (set_prefault fmNoCallbacks "RiskyTemperatureOffice" none)).any
        (fun e => e.isSetStateOf ("sensor.fault_" ++ faultRT.name) "Set") = true ∧
    Effect.log LogMsg.noNotificationInterface LogLevel.WARNING
        ∈ effsOf (set_prefault fmNoCallbacks "RiskyTemperatureOffice" none) ∧
    Effect.log LogMsg.noRecoveryInterface LogLevel.WARNING
        ∈ effsOf (set_prefault fmNoCallbacks "RiskyTemperatureOffice" none) ∧
    (effsOf (set_prefault fmNoCallbacks "RiskyTemperatureOffice" none)).any
        (fun e => e.isNotify || e.isRecoveryCall) = false :=
  set_prefault_without_callbacks fmNoCallbacks "RiskyTemperatureOffice" none
    pfOffice faultRT (by decide) (by decide) (by decide) (by decide)

/-- C10: pre-fault state is committed before fault resolution: when the
mapped-fault lookup finds zero or several faults, `set_prefault` /
`clear_prefault` raise no error, still mark the pre-fault SET / CLEARED,
and leave the fault registry and the entity store untouched while
emitting only log effects (no entity write, no callback). -/
theorem prefault_committed_on_config_error (s : FMState) (p : String)
    (info : Option Info) (pf : PreFault)
    (hpf : pfLookup s p = some pf)
    (hN : (mappedFaults s pf.sm_name).length ≠ 1) :
    (set_prefault s p info).isOk = true ∧
    pfState? (okStateOr (set_prefault s p info) s) p = some FaultState.SET ∧
    (okStateOr (set_prefault s p info) s).faults = s.faults ∧
    (okStateOr (set_prefault s p info) s).entities = s.entities ∧
    (effsOf (set_prefault s p info)).all (fun e => e.isLog) = true ∧
    (clear_prefault s p info).isOk = true ∧
    pfState? (okStateOr (clear_prefault s p info) s) p = some FaultState.CLEARED ∧
    (okStateOr (clear_prefault s p info) s).faults = s.faults ∧
    (okStateOr (clear_prefault s p info) s).entities = s.entities ∧
    (effsOf (clear_prefault s p info)).all (fun e => e.isLog) = true := by
  rcases hm : mappedFaults s pf.sm_name with _ | ⟨F1, rest1⟩
  · have hset := set_prefault_eq_fail s p info pf _ hpf
      (found_mapped_fault_zero _ p pf.sm_name (by exact hm))
    have hclear := clear_prefault_eq_fail s p info pf _ hpf
      (found_mapped_fault_zero _ p pf.sm_name (by exact hm))
    rw [hset, hclear]
    refine ⟨rfl, ?_, rfl, rfl, by simp [effsOf, okEffects, Effect.isLog], rfl, ?_, rfl, rfl,
      by simp [effsOf, okEffects, Effect.isLog]⟩
    · simp only [okStateOr]
      exact pfState?_after_update_only s p FaultState.SET pf hpf
    · simp only [okStateOr]
      exact pfState?_after_update_only s p FaultState.CLEARED pf hpf
  · rcases rest1 with _ | ⟨F2, rest⟩
    · exact absurd (by rw [hm]; rfl) hN
    · have hset := set_prefault_eq_fail s p info pf _ hpf
        (found_mapped_fault_multi _ p pf.sm_name F1 F2 rest (by exact hm))
      have hclear := clear_prefault_eq_fail s p info pf _ hpf
        (found_mapped_fault_multi _ p pf.sm_name F1 F2 rest (by exact hm))
      rw [hset, hclear]
      refine ⟨rfl, ?_, rfl, rfl, by simp [effsOf, okEffects, Effect.isLog], rfl, ?_, rfl, rfl,
        by simp [effsOf, okEffects, Effect.isLog]⟩
      · simp only [okStateOr]
        exact pfState?_after_update_only s p FaultState.SET pf hpf
      · simp only [okStateOr]
        exact pfState?_after_update_only s p FaultState.CLEARED pf hpf

/-- Witness for `prefault_committed_on_config_error` on the fixture with
no fault listing `sm_tc_1`. -/
theorem prefault_committed_on_config_error_witness :
    (set_prefault fmZeroFaults "RiskyTemperatureOffice" none).isOk = true ∧
    pfState? (okStateOr (set_prefault fmZeroFaults "RiskyTemperatureOffice" none) fmZeroFaults)
        "RiskyTemperatureOffice" = some FaultState.SET ∧
    (okStateOr (set_prefault fmZeroFaults "RiskyTemperatureOffice" none) fmZeroFaults).faults
        = fmZeroFaults.faults ∧
    (okStateOr (set_prefault fmZeroFaults "RiskyTemperatureOffice" none) fmZeroFaults).entities
        = fmZeroFaults.entities ∧
    (effsOf (set_prefault fmZeroFaults "RiskyTemperatureOffice" none)).all
        (fun e => e.isLog) = true ∧
    (clear_prefault fmZeroFaults "RiskyTemperatureOffice" none).isOk = true ∧
    pfState? (okStateOr (clear_prefault fmZeroFaults "RiskyTemperatureOffice" none) fmZeroFaults)
        "RiskyTemperatureOffice" = some FaultState.CLEARED ∧
    (okStateOr (clear_prefault fmZeroFaults "RiskyTemperatureOffice" none) fmZeroFaults).faults
        = fmZeroFaults.faults ∧
    (okStateOr (clear_prefault fmZeroFaults "RiskyTemperatureOffice" none) fmZeroFaults).entities
        = fmZeroFaults.entities ∧
    (effsOf (clear_prefault fmZeroFaults "RiskyTemperatureOffice" none)).all
        (fun e => e.isLog) = true :=
  prefault_committed_on_config_error fmZeroFaults "RiskyTemperatureOffice" none
    pfOffice (by decide) (by decide)

/-- C5 (code observation): on the attribute-retraction scenario — fault
entity holding attributes `location = "Office"`, clearing the only SET
pre-fault with `additional_info` `location = "Office"` — `_clear_fault`
writes the entity state "Cleared" with the matching value still present
under the key, because it calls `_determinate_info` with
`FaultState.SET`; the CLEARED branch of `_determinate_info` (`clearInfo`),
which implements the removal the claim describes, would have deleted the
key, as the last two conjuncts show. -/
theorem clear_fault_keeps_attributes :
    (okStateOr (clear_prefault fmAttr "RiskyTemperatureOffice"
        (some [("location", "Office")])) fmAttr).entities
      = [("sensor.fault_RiskyTemperature",
          { state := "Cleared", attributes := [("location", "Office")] })] ∧
    clearInfo [("location", "Office")] [("location", "Office")] = [] ∧
    determinate_info fmAttr "sensor.fault_RiskyTemperature"
        (some [("location", "Office")]) FaultState.CLEARED = some [] := by
  decide

/-- C4 (code observation): with two recovery actions of the same family
(`raP2.name` a substring of `raP1.name`) and the competing action mapped
to a fault of strictly higher priority (notification_level 3 vs 2),
`_isRecoveryConflict` still reports no conflict — `_get_matching_actions`
always contains the pre-fault's own action, and the source scans for
conflicts only when that list is empty — so `recovery` commits the
proposed entity change instead of aborting. -/
theorem recovery_commits_despite_priority_conflict :
    _get_matching_actions rmC4 pfA4 = Except.ok ["P1", "P2"] ∧
    mappedFaults rmC4.fm pfA4.sm_name = [faultA4] ∧
    mappedFaults rmC4.fm pfB4.sm_name = [faultB4] ∧
    faultA4.notification_level < faultB4.notification_level ∧
    _isRecoveryConflict rmC4 pfA4 = Except.ok false ∧
    recovery rmC4 pfA4 = Except.ok
      [Effect.setState "sensor.ManipulateWindowBig" "IDLE" [],
       Effect.setState "switch.window_office" "open" []] := by
  refine ⟨rfl, by decide, by decide, by decide, rfl, rfl⟩

/-- C3 (amended): dry-run veto as implemented: if the proposed
`changed_entities` trigger some enabled mechanism whose `sm_name` differs
from the recovered pre-fault's *name* (the comparison `_run_dry_test`
performs), then `recovery` emits no `set_state` effect at all. -/
theorem dry_run_veto (rm : RMState) (prefault : PreFault) (changes : Info)
    (notifs : List String) (effs : List Effect)
    (hrf : rm.recFunResult prefault.name = some (changes, notifs))
    (htrig : ∃ q, q ∈ rm.fm.prefaults ∧ q.sm_state = SMState.ENABLED ∧
      rm.smTestResult q.name changes = true ∧ q.sm_name ≠ prefault.name)
    (hok : recovery rm prefault = Except.ok effs) :
    ∀ e v a, Effect.setState e v a ∉ effs := by
  intro e v a hmem
  have hdry : _run_dry_test rm prefault.name changes = true := by
    obtain ⟨q, hq, hen, htest, hsm⟩ := htrig
    unfold _run_dry_test
    rw [List.any_eq_true]
    exact ⟨q, hq, by simp [hen, htest, hsm]⟩
  cases hfr : _find_recovery rm prefault.name with
  | none =>
    simp only [recovery, hfr] at hok
    cases hok
    simp at hmem
  | some ra =>
    rcases changes with _ | ⟨c, cs⟩
    · simp [recovery, hfr, hrf, infoTruthy] at hok
      subst hok
      simp at hmem
    · simp [recovery, hfr, hrf, infoTruthy, hdry] at hok
      subst hok
      simp at hmem

/-- C3 counterexample to the claim as stated: in `rmC3` the *other*
mechanism `pfOther3` is enabled and its test reports triggered under the
proposed changes, yet `recovery` commits the entity change — because
`pfOther3.sm_name` equals the recovered pre-fault's *name* and the
dry-run comparison skips exactly that case. -/
theorem dry_run_veto_counterexample :
    pfOther3 ∈ rmC3.fm.prefaults ∧
    pfOther3.name ≠ pfC3.name ∧
    pfOther3.sm_state = SMState.ENABLED ∧
    rmC3.smTestResult pfOther3.name changesC3 = true ∧
    rmC3.recFunResult pfC3.name = some (changesC3, []) ∧
    recovery rmC3 pfC3 = Except.ok
      [Effect.setState "sensor.WinP1" "IDLE" [],
       Effect.setState "switch.x" "on" []] := by
  refine ⟨by decide, by decide, by decide, by decide, rfl, rfl⟩

/-- Witness for `dry_run_veto`: with the colliding name removed
(`pfOther3v.sm_name = "sm_b"`), the veto fires and no state is set. -/
theorem dry_run_veto_witness :
    recovery rmC3v pfC3
      = Except.ok [Effect.log LogMsg.recoveryWillRaiseAnotherFault LogLevel.DEBUG] ∧
    Effect.setState "switch.x" "on" []
      ∉ [Effect.log LogMsg.recoveryWillRaiseAnotherFault LogLevel.DEBUG] := by
  have hok : recovery rmC3v pfC3
      = Except.ok [Effect.log LogMsg.recoveryWillRaiseAnotherFault LogLevel.DEBUG] := rfl
  exact ⟨hok, dry_run_veto rmC3v pfC3 changesC3 [] _ rfl
    ⟨pfOther3v, by decide, by decide, by decide, by decide⟩ hok "switch.x" "on" []⟩

/-- Witness for `debounce_hysteresis` at limit = 2. -/
theorem debounce_hysteresis_witness :
    ((0 : Int) < 2) ∧
    (debounce 5 true 2).counter = min 2 (5 + 1) ∧
    (debounce 5 false 2).counter = max (-2) (5 - 1) ∧
    (debounce (debounceIter true 2 0) true 2).action = DebounceAction.NO_ACTION ∧
    (debounce (debounceIter true 2 ((2 : Int).toNat - 1)) true 2).action
        = DebounceAction.PREFAULT_SET ∧
    (debounce (debounceIter false 2 0) false 2).action = DebounceAction.NO_ACTION ∧
    (debounce (debounceIter false 2 ((2 : Int).toNat - 1)) false 2).action
        = DebounceAction.PREFAULT_HEALED := by
  have h := debounce_hysteresis 2 (by norm_num)
  refine ⟨by norm_num, h.1 5, h.2.1 5, ?_, h.2.2.2.1, ?_, h.2.2.2.2.2⟩
  · have := h.2.2.1 1 (le_refl 1) (by norm_num)
    simpa using this
  · have := h.2.2.2.2.1 1 (le_refl 1) (by norm_num)
    simpa using this

end HASafety

namespace HASafety

/-! ### No-regression machinery (claim C6) -/

theorem progressed_rfl (a : Option FaultState) : Progressed a a := Or.inl rfl

theorem progressed_trans {a b c : Option FaultState}
    (h1 : Progressed a b) (h2 : Progressed b c) : Progressed a c := by
  rcases h2 with h2 | h2 | h2
  · rw [h2]; exact h1
  · exact Or.inr (Or.inl h2)
  · exact Or.inr (Or.inr h2)

theorem stepOK_refl (s : FMState) : StepOK s s :=
  ⟨fun _ => progressed_rfl _, fun _ => progressed_rfl _⟩

theorem stepOK_trans {s1 s2 s3 : FMState} (h12 : StepOK s1 s2) (h23 : StepOK s2 s3) :
    StepOK s1 s3 :=
  ⟨fun n => progressed_trans (h12.1 n) (h23.1 n),
   fun n => progressed_trans (h12.2 n) (h23.2 n)⟩

theorem faultState?_setEntityState (s : FMState) (e st : String) (a : Info) (n : String) :
    faultState? (setEntityState s e st a) n = faultState? s n := by
  unfold faultState?
  rw [setEntityState_faults]

theorem progressed_pf_update (l : List PreFault) (id n : String) (st : FaultState)
    (hst : st = FaultState.SET ∨ st = FaultState.CLEARED) :
    Progressed ((l.find? (fun q => q.name == n)).map (fun q => q.state))
      (((setPFStateByName l id st).find? (fun q => q.name == n)).map (fun q => q.state)) := by
  rw [pfLookup_setPFStateByName]
  cases hfind : l.find? (fun q => q.name == n) with
  | none => exact Or.inl rfl
  | some q =>
    simp only [Option.map_some']
    split
    · rcases hst with hst | hst <;> subst hst
      · exact Or.inr (Or.inl rfl)
      · exact Or.inr (Or.inr rfl)
    · exact Or.inl rfl

theorem progressed_fault_update (l : List Fault) (sm n : String) (st : FaultState)
    (hst : st = FaultState.SET ∨ st = FaultState.CLEARED) :
    Progressed ((l.find? (fun f => f.name == n)).map (fun f => f.state))
      (((setFaultStateBySm l sm st).find? (fun f => f.name == n)).map (fun f => f.state)) := by
  unfold setFaultStateBySm
  rw [findMapPred l _ _ (fun f => by
    show ((if f.related_prefaults.contains sm then { f with state := st } else f).name == n)
      = (f.name == n)
    split <;> rfl)]
  cases hfind : l.find? (fun f => f.name == n) with
  | none => exact Or.inl rfl
  | some f =>
    simp only [Option.map_some']
    split
    · rcases hst with hst | hst <;> subst hst
      · exact Or.inr (Or.inl rfl)
      · exact Or.inr (Or.inr rfl)
    · exact Or.inl rfl

theorem find_state_smUpdate (l : List PreFault) (g : PreFault → PreFault)
    (hname : ∀ x, (g x).name = x.name) (hstate : ∀ x, (g x).state = x.state) (n : String) :
    ((l.map g).find? (fun q => q.name == n)).map (fun q => q.state)
      = (l.find? (fun q => q.name == n)).map (fun q => q.state) := by
  rw [findMapPred l g _ (fun x => by rw [hname])]
  cases l.find? (fun q => q.name == n) with
  | none => rfl
  | some q => simp only [Option.map_some', hstate]

theorem stepOK_init (s : FMState) (ok : List String) :
    StepOK s (init_safety_mechanisms s ok) := by
  constructor
  · intro n
    left
    show pfState? (init_safety_mechanisms s ok) n = pfState? s n
    unfold pfState? pfLookup init_safety_mechanisms
    exact find_state_smUpdate s.prefaults _ (fun x => by split <;> rfl)
      (fun x => by split <;> rfl) n
  · intro n
    left
    rfl

theorem stepOK_smOnly (s : FMState) (id : String) (st : SMState) :
    StepOK s { s with prefaults := setPFSmStateByName s.prefaults id st } := by
  constructor
  · intro n
    left
    show pfState? _ n = pfState? s n
    unfold pfState? pfLookup setPFSmStateByName
    exact find_state_smUpdate s.prefaults _ (fun x => by split <;> rfl)
      (fun x => by split <;> rfl) n
  · intro n
    left
    rfl

theorem stepOK_set_prefault (s : FMState) (p : String) (info : Option Info) :
    StepOK s (okStateOr (set_prefault s p info) s) := by
  cases hpf : pfLookup s p with
  | none =>
    have herr : set_prefault s p info = Except.error (PyError.keyError p) := by
      unfold set_prefault
      rw [hpf]
    rw [herr]
    exact stepOK_refl s
  | some pf =>
    rcases hm : s.faults.filter (fun f => f.related_prefaults.contains pf.sm_name)
      with _ | ⟨F1, _ | ⟨F2, rest⟩⟩
    · rw [set_prefault_eq_fail s p info pf _ hpf
        (found_mapped_fault_zero _ p pf.sm_name (by exact hm))]
      exact ⟨fun n => progressed_pf_update s.prefaults p n FaultState.SET (Or.inl rfl),
             fun n => Or.inl rfl⟩
    · rw [set_prefault_eq_one s p info pf F1 hpf hm]
      constructor
      · intro n
        simp only [okStateOr]
        rw [pfState?_setEntityState]
        exact progressed_pf_update s.prefaults p n FaultState.SET (Or.inl rfl)
      · intro n
        simp only [okStateOr]
        rw [faultState?_setEntityState]
        exact progressed_fault_update s.faults pf.sm_name n FaultState.SET (Or.inl rfl)
    · rw [set_prefault_eq_fail s p info pf _ hpf
        (found_mapped_fault_multi _ p pf.sm_name F1 F2 rest (by exact hm))]
      exact ⟨fun n => progressed_pf_update s.prefaults p n FaultState.SET (Or.inl rfl),
             fun n => Or.inl rfl⟩

theorem stepOK_clear_prefault (s : FMState) (p : String) (info : Option Info) :
    StepOK s (okStateOr (clear_prefault s p info) s) := by
  cases hpf : pfLookup s p with
  | none =>
    have herr : clear_prefault s p info = Except.error (PyError.keyError p) := by
      unfold clear_prefault
      rw [hpf]
    rw [herr]
    exact stepOK_refl s
  | some pf =>
    rcases hm : s.faults.filter (fun f => f.related_prefaults.contains pf.sm_name)
      with _ | ⟨F1, _ | ⟨F2, rest⟩⟩
    · rw [clear_prefault_eq_fail s p info pf _ hpf
        (found_mapped_fault_zero _ p pf.sm_name (by exact hm))]
      exact ⟨fun n => progressed_pf_update s.prefaults p n FaultState.CLEARED (Or.inr rfl),
             fun n => Or.inl rfl⟩
    · cases hsib : (setPFStateByName s.prefaults p FaultState.CLEARED).any
          (fun r => r.sm_name == pf.sm_name && r.state == FaultState.SET) with
      | true =>
        rw [clear_prefault_eq_blocked s p info pf F1 hpf hm hsib]
        exact ⟨fun n => progressed_pf_update s.prefaults p n FaultState.CLEARED (Or.inr rfl),
               fun n => Or.inl rfl⟩
      | false =>
        rw [clear_prefault_eq_clear s p info pf F1 hpf hm hsib]
        constructor
        · intro n
          simp only [okStateOr]
          rw [pfState?_setEntityState]
          exact progressed_pf_update s.prefaults p n FaultState.CLEARED (Or.inr rfl)
        · intro n
          simp only [okStateOr]
          rw [faultState?_setEntityState]
          exact progressed_fault_update s.faults pf.sm_name n FaultState.CLEARED (Or.inr rfl)
    · rw [clear_prefault_eq_fail s p info pf _ hpf
        (found_mapped_fault_multi _ p pf.sm_name F1 F2 rest (by exact hm))]
      exact ⟨fun n => progressed_pf_update s.prefaults p n FaultState.CLEARED (Or.inr rfl),
             fun n => Or.inl rfl⟩

theorem stepOK_enableStep (ok : List String) (forced : ForcedCalls) (s : FMState)
    (name : String) : StepOK s (enableStep ok forced s name) := by
  unfold enableStep
  cases hpf : pfLookup s name with
  | none => exact stepOK_refl s
  | some pf =>
    dsimp only
    by_cases hdis : pf.sm_state = SMState.DISABLED
    · rw [if_pos hdis]
      by_cases hok : (ok.contains name) = true
      · rw [if_pos hok]
        cases hforced : (forced.find? (fun c => c.1 == name)).map (fun c => c.2) with
        | none => exact stepOK_smOnly s name SMState.ENABLED
        | some bc =>
          obtain ⟨b, i⟩ := bc
          cases b with
          | false =>
            exact stepOK_trans (stepOK_smOnly s name SMState.ENABLED)
              (stepOK_clear_prefault _ name i)
          | true =>
            exact stepOK_trans (stepOK_smOnly s name SMState.ENABLED)
              (stepOK_set_prefault _ name i)
      · rw [if_neg hok]
        exact stepOK_smOnly s name SMState.ERROR
    · rw [if_neg hdis]
      exact stepOK_refl s

theorem stepOK_foldl (ok : List String) (forced : ForcedCalls) (names : List String) :
    ∀ s : FMState, StepOK s (names.foldl (enableStep ok forced) s) := by
  induction names with
  | nil => intro s; exact stepOK_refl s
  | cons a as ih =>
    intro s
    exact stepOK_trans (stepOK_enableStep ok forced s a) (ih (enableStep ok forced s a))

theorem stepOK_applyOp (s : FMState) (op : FMOp) : StepOK s (applyOp s op) := by
  cases op with
  | setPF id info => exact stepOK_set_prefault s id info
  | clearPF id info => exact stepOK_clear_prefault s id info
  | initSMs ok => exact stepOK_init s ok
  | enableAll ok forced => exact stepOK_foldl ok forced (s.prefaults.map (fun pf => pf.name)) s
  | checkPF id => exact stepOK_refl s
  | checkFault id => exact stepOK_refl s

theorem stepOK_applyOps (ops : List FMOp) : ∀ s : FMState, StepOK s (applyOps s ops) := by
  induction ops with
  | nil => intro s; exact stepOK_refl s
  | cons op rest ih =>
    intro s
    exact stepOK_trans (stepOK_applyOp s op) (ih (applyOp s op))

end HASafety

namespace HASafety

/-- C6: No regression to NOT_TESTED: once a pre-fault's or fault's
observed state is SET or CLEARED, no sequence of fault-manager
operations (`set_prefault`, `clear_prefault`, `init_safety_mechanisms`,
`enable_all_prefaults` — including the forced mechanism invocations it
triggers — `check_prefault`, `check_fault`) returns that state to
NOT_TESTED. -/
theorem no_regress_to_not_tested (s : FMState) (ops : List FMOp) (n : String) :
    ((pfState? s n = some FaultState.SET ∨ pfState? s n = some FaultState.CLEARED) →
      (pfState? (applyOps s ops) n = some FaultState.SET ∨
       pfState? (applyOps s ops) n = some FaultState.CLEARED)) ∧
    ((faultState? s n = some FaultState.SET ∨ faultState? s n = some FaultState.CLEARED) →
      (faultState? (applyOps s ops) n = some FaultState.SET ∨
       faultState? (applyOps s ops) n = some FaultState.CLEARED)) := by
  have h := stepOK_applyOps ops s
  constructor
  · intro hs
    rcases h.1 n with heq | hv | hv
    · rw [heq]; exact hs
    · exact Or.inl hv
    · exact Or.inr hv
  · intro hs
    rcases h.2 n with heq | hv | hv
    · rw [heq]; exact hs
    · exact Or.inl hv
    · exact Or.inr hv

/-- Witness for `no_regress_to_not_tested`: the office pre-fault and the
fault stay out of NOT_TESTED across a sample sequence of all operation
kinds. -/
theorem no_regress_to_not_tested_witness :
    (pfState? (applyOps fmOfficeSet opsC6) "RiskyTemperatureOffice" = some FaultState.SET ∨
     pfState? (applyOps fmOfficeSet opsC6) "RiskyTemperatureOffice" = some FaultState.CLEARED) ∧
    (faultState? (applyOps fmOfficeSet opsC6) "RiskyTemperature" = some FaultState.SET ∨
     faultState? (applyOps fmOfficeSet opsC6) "RiskyTemperature" = some FaultState.CLEARED) :=
  ⟨(no_regress_to_not_tested fmOfficeSet opsC6 "RiskyTemperatureOffice").1
      (Or.inl (by decide)),
   (no_regress_to_not_tested fmOfficeSet opsC6 "RiskyTemperature").2
      (Or.inl (by decide))⟩

end HASafety
